import Mathlib

/-!
Verification of the WebSocket-EchoServer test server.

This file is a shallow embedding of the live (non-commented) code of
`src/main.rs` and `src/messages.rs`: the fixture generator, the naive
keyword search, the request handlers, the route table built in `main`,
and the WebSocket push loop.  Definitions keep the Rust names.

Effects are made explicit:
* `build_chat_message` draws three fresh UUIDs and the current timestamp on
  every call; we pass the drawn values in via a `FreshIds` record, and a
  whole fixture-set generation consumes an `Entropy` (one `FreshIds` per
  message slot).
* a Rust panic (`unwrap` on `None`, as in `search_messages` and the two
  `from_string` parsers) is modelled by the enclosing operation returning
  `none` instead of a value: `none` means the handler produced no HTTP
  response at all.
* the Rust `f32` values in this program are only ever constructed from
  small whole numbers (`seed as f32`, literals such as `0.0`, `1.0`,
  `90.0`) and stored, never computed with; in the range used every
  `i32`-to-`f32` conversion is exact and `format!("{}", x)` prints such a
  float without a fractional part, exactly like `toString` on `Int`, so we
  model `f32` by `Int`.
-/

/-! ## Constants (src/main.rs lines 42-56, src/messages.rs line 23) -/

def UNCLASSIFIED_STRING : String := "UNCLASSIFIED"

def TEST_ROOM_NAME : String := "edge-view-test-room"

def TEST_DOMAIN_ID : String := "chatsurferxmppunclass"

def TEST_KEYWORD : String := "Antediluvian"

def GET_API_KEY_ROUTE : String := "/api/auth/key"

def MESSAGES_ROUTE : String := "/api/chat/messages/chatsurferxmppunclass/edge-view-test-room"

def NEW_MESSAGE_ROUTE : String := "/api/chatserver/message"

def SEARCH_MESSAGES_ROUTE : String := "/api/chatsearch/messages/search"

def WS_SINGLE_ROOM_ROUTE : String := "/topic/chat-messages-room/chatsurferxmppunclass/edge-view-test-room"

def MAX_REGIONS : Nat := 5

/-- Rust `f32`, modelled by `Int` (see the header comment: every float in the
program is a stored whole number, no float arithmetic ever happens). -/
abbrev F32 := Int

/-! ## Location data model (src/messages.rs lines 729-849) -/

/-- Enum `LocationType` (messages.rs lines 732-737). -/
inductive LocationType where
  | Point
  | Polygon
deriving DecidableEq

/-- Struct `PointLocation` (messages.rs lines 746-749): it has no fields. -/
structure PointLocation where

/-- Struct `PolygonLocation` (messages.rs lines 751-756). -/
structure PolygonLocation where
  type : String
  coordinates : List (List F32)

/-- Enum `LocationTypes` (messages.rs lines 783-787): the Point/Polygon union
carried in a `LocationSchema`. -/
inductive LocationTypes where
  | Point (location : PointLocation)
  | Polygon (location : PolygonLocation)

/-- `PolygonLocation::new` (messages.rs lines 759-764). -/
def PolygonLocation.new (new_coordinates : List (List F32)) : PolygonLocation :=
  { type := "Polygon", coordinates := new_coordinates }

/-- `PolygonLocation::test` (messages.rs lines 766-771). -/
def PolygonLocation.test (seed : F32) : PolygonLocation :=
  { type := "Polygon", coordinates := [[seed]] }

/-- `PolygonLocation::world_coordinates` (messages.rs lines 773-780). -/
def PolygonLocation.world_coordinates : List (List F32) :=
  [[90, 180], [90, -180], [-90, -180], [-90, 180]]

/-- Struct `LocationSchema` (messages.rs lines 794-800): declared type tag in
`type`, active Point/Polygon payload in `aoi`. -/
structure LocationSchema where
  aoi : LocationTypes
  type : LocationType

/-- `LocationSchema::init` (messages.rs lines 814-822).  Note: whatever
`new_type` says, the `aoi` payload built here is always the Polygon variant. -/
def LocationSchema.init (coord_value : F32) (new_type : LocationType) : LocationSchema :=
  { aoi := LocationTypes.Polygon (PolygonLocation.test coord_value),
    type := new_type }

/-- `LocationSchema::new_polygon` (messages.rs lines 825-834). -/
def LocationSchema.new_polygon : LocationSchema :=
  { type := LocationType.Polygon,
    aoi := LocationTypes.Polygon (PolygonLocation.new PolygonLocation.world_coordinates) }

/-- Spec-side predicate, following the §3 invariant wording: the active
variant of the Point/Polygon union matches the declared type tag.  This is
the property claimed of the code, not a function found in the source. -/
def location_variant_matches_tag (l : LocationSchema) : Bool :=
  match l.type, l.aoi with
  | LocationType.Point, LocationTypes.Point _ => true
  | LocationType.Polygon, LocationTypes.Polygon _ => true
  | _, _ => false

/-! ## Regions and geo tags (src/messages.rs lines 851-958, src/main.rs lines 58-91) -/

/-- Struct `RegionSchema` (messages.rs lines 856-865). -/
structure RegionSchema where
  abbreviation : String
  bounds : List F32
  description : String
  name : String
  region_type : String

/-- `RegionSchema::new_test` (messages.rs lines 879-889).  Rust formats the
whole-valued `f32` seed with `format!("{}", ..)`, which prints no fractional
part, matching `toString` on our `Int` model. -/
def RegionSchema.new_test (seed : F32) : RegionSchema :=
  { abbreviation := "us",
    bounds := [seed],
    description := "This region " ++ toString seed ++ " is for testing.",
    name := "Test region " ++ toString seed,
    region_type := "Country" }

/-- Struct `GeoTagSchema` (messages.rs lines 914-928). -/
structure GeoTagSchema where
  anchor_end : Int
  anchor_start : Int
  anchor_text : String
  confidence : F32
  location : LocationSchema
  regions : List RegionSchema
  type : String

/-- `build_region_array` (main.rs lines 58-71): the while-loop inserts
`RegionSchema::new_test(seed)` at indices `0..length`, i.e. `length` copies. -/
def build_region_array (seed : Int) : Nat → List RegionSchema
  | 0 => []
  | n + 1 => RegionSchema.new_test seed :: build_region_array seed n

/-- `build_geotag` (main.rs lines 73-87). -/
def build_geotag (seed : Int) : GeoTagSchema :=
  { anchor_end := seed,
    anchor_start := seed,
    anchor_text := "Anchor text for GeoTag " ++ toString seed,
    confidence := seed,
    location := LocationSchema.init 1 LocationType.Point,
    regions := build_region_array seed MAX_REGIONS,
    type := "PAL" }

/-- `build_geotag_array` (main.rs lines 89-91). -/
def build_geotag_array (seed : Int) : List GeoTagSchema :=
  [build_geotag seed]

/-! ## Chat messages and the fixture generator (src/messages.rs lines 506-529, src/main.rs lines 93-142) -/

/-- Struct `ChatMessageSchema` (messages.rs lines 506-529).  The Rust field
`private` is a Lean keyword, hence `isPrivate`. -/
structure ChatMessageSchema where
  classification : String
  domain_id : String
  geo_tags : Option (List GeoTagSchema)
  id : String
  room_name : String
  sender : String
  text : String
  thread_id : Option String
  timestamp : String
  user_id : String
  isPrivate : Bool

/-- The values `build_chat_message` draws from its environment on one call:
three fresh UUIDs (`Uuid::new_v4`) and the current time (`Utc::now`). -/
structure FreshIds where
  id : String
  thread_id : String
  user_id : String
  timestamp : String

/-- One `FreshIds` record per fixture-message slot. -/
abbrev Entropy := Nat → FreshIds

/-- `build_chat_message` (main.rs lines 93-114), with the drawn UUIDs and
timestamp passed in explicitly through `fresh`. -/
def build_chat_message (fresh : FreshIds) (seed : Int)
    (new_name : String) (additional_text : String) : ChatMessageSchema :=
  { classification := UNCLASSIFIED_STRING,
    domain_id := TEST_DOMAIN_ID,
    geo_tags := some (build_geotag_array seed),
    id := fresh.id,
    room_name := TEST_ROOM_NAME,
    sender := new_name,
    text := "This is some test message text." ++ additional_text,
    thread_id := some fresh.thread_id,
    timestamp := fresh.timestamp,
    user_id := fresh.user_id,
    isPrivate := false }

/-- Struct `GetChatMessagesResponse` (messages.rs lines 278-289). -/
structure GetChatMessagesResponse where
  classification : String
  messages : List ChatMessageSchema
  domain_id : String
  isPrivate : Bool
  room_name : String

/-- `build_get_messages_response` (main.rs lines 116-142): the ten fixed
seed/sender/extra-text pushes, in source order. -/
def build_get_messages_response (e : Entropy) : GetChatMessagesResponse :=
  { classification := UNCLASSIFIED_STRING,
    messages :=
      [ build_chat_message (e 0) 25 "Austin" TEST_KEYWORD,
        build_chat_message (e 1) 4 "Tyler" "",
        build_chat_message (e 2) 7 "Joe" TEST_KEYWORD,
        build_chat_message (e 3) 9 "Jeremy" "",
        build_chat_message (e 4) 2 "Trevor" "",
        build_chat_message (e 5) 4 "Justin" TEST_KEYWORD,
        build_chat_message (e 6) 97856 "Ryan" "",
        build_chat_message (e 7) 123 "Joseph" "",
        build_chat_message (e 8) 432 "Rita" "",
        build_chat_message (e 9) 654 "Matt" "" ],
    domain_id := TEST_DOMAIN_ID,
    room_name := TEST_ROOM_NAME,
    isPrivate := false }

/-! ## Keyword search (src/main.rs lines 144-160) -/

/-- Does the pattern (first argument) lead the character list (second
argument)?  Building block for Rust `str::contains`. -/
def leadsChars : List Char → List Char → Bool
  | [], _ => true
  | _ :: _, [] => false
  | p :: ps, c :: cs => p == c && leadsChars ps cs

/-- Rust `str::contains(&str)`: ordinal substring containment of `pat` in
`s`, checked at every suffix. -/
def containsSub (s pat : List Char) : Bool :=
  match s with
  | [] => leadsChars pat []
  | _ :: cs => leadsChars pat s || containsSub cs pat

/-- `message.text.contains(token)` from `search_messages`. -/
def strContains (hay pat : String) : Bool :=
  containsSub hay.data pat.data

/-- Rust `keywords.split(" ")` over the characters of the string: cut at
every single space, keeping empty pieces (adjacent/leading/trailing
separators yield `""` entries, as in Rust). -/
def splitOnSpace : List Char → List Char → List String
  | [], acc => [String.mk acc.reverse]
  | c :: cs, acc =>
      if c = ' ' then String.mk acc.reverse :: splitOnSpace cs []
      else splitOnSpace cs (c :: acc)

/-- The `split_keywords` vector of `search_messages` (main.rs lines 147-148):
split on `" "`, then `retain(|&x| x != "")`. -/
def split_keywords (keywords : String) : List String :=
  (splitOnSpace keywords.data []).filter (fun t => t != "")

/-- The for-loop of `search_messages` (main.rs lines 153-157).  The source
evaluates `split_keywords.first().unwrap()` inside the loop body; `none` for
`first_keyword` therefore panics as soon as one message is examined, modelled
by the loop producing no result. -/
def searchLoop (first_keyword : Option String) :
    List ChatMessageSchema → Option (List ChatMessageSchema)
  | [] => some []
  | message :: rest =>
      match first_keyword with
      | none => none
      | some kw =>
          match searchLoop first_keyword rest with
          | none => none
          | some found =>
              some (if strContains message.text kw then message :: found else found)

/-- `search_messages` (main.rs lines 144-160): split the query, drop empty
tokens, then keep the fixture messages whose text contains the first token.
`none` models the panic of `.first().unwrap()` on an empty token list. -/
def search_messages (e : Entropy) (keywords : String) : Option (List ChatMessageSchema) :=
  searchLoop (split_keywords keywords).head? (build_get_messages_response e).messages

/-! ## Request and response shapes (src/messages.rs) -/

/-- Struct `FieldErrorSchema` (messages.rs lines 577-591). -/
structure FieldErrorSchema where
  field_name : String
  message : String
  message_arguments : List String
  message_code : String
  rejected_value : String

/-- Struct `ErrorCode400` (messages.rs lines 37-45). -/
structure ErrorCode400 where
  classification : String
  code : Nat
  field_errors : List FieldErrorSchema
  message : String

/-- `Default for ErrorCode400` (messages.rs lines 47-56). -/
def ErrorCode400.default : ErrorCode400 :=
  { classification := UNCLASSIFIED_STRING,
    code := 400,
    field_errors := [],
    message := "Bad Request" }

/-- Struct `SendChatMessageRequest` (messages.rs lines 217-228). -/
structure SendChatMessageRequest where
  classification : String
  domain_id : String
  message : String
  nickname : String
  room_name : String

/-- Struct `KeywordFilter` (messages.rs lines 963-966). -/
structure KeywordFilter where
  query : String

/-- Enum `MentionType` (messages.rs lines 994-997). -/
inductive MentionType where
  | USER

/-- Struct `Mention` (messages.rs lines 1004-1009). -/
structure Mention where
  mention_type : MentionType
  value : String

/-- Struct `MentionFilter` (messages.rs lines 1014-1017). -/
structure MentionFilter where
  mentions : List Mention

/-- Struct `DomainFilterProperties` (messages.rs lines 1022-1025). -/
structure DomainFilterProperties where
  properties : List String

/-- Struct `DomainFilterDetail` (messages.rs lines 1030-1035); the Rust
`HashMap<String, DomainFilterProperties>` is modelled as an association
list. -/
structure DomainFilterDetail where
  domains : List (String × DomainFilterProperties)

/-- Enum `SortDirection` (messages.rs lines 1040-1047). -/
inductive SortDirection where
  | ASC
  | DESC

/-- Enum `SortField` (messages.rs lines 1052-1065). -/
inductive SortField where
  | DOMAIN
  | RELEVANCE
  | ROOM
  | SENDER
  | TIME

/-- Struct `SortFilter` (messages.rs lines 1070-1073). -/
structure SortFilter where
  orders : List (SortDirection × SortField)

/-- Struct `ThreadIdFilter` (messages.rs lines 1080-1084). -/
structure ThreadIdFilter where
  thread_ids : List String

/-- Struct `TimeFilterRequest` (messages.rs lines 1095-1105). -/
structure TimeFilterRequest where
  end_date_time : Option String
  look_back_duration : Option String
  start_date_time : Option String

/-- Struct `UserIdFilter` (messages.rs lines 1143-1147). -/
structure UserIdFilter where
  user_ids : List String

/-- Struct `TimeFilterResponse` (messages.rs lines 1152-1156). -/
structure TimeFilterResponse where
  end_date_time : String

/-- Struct `SearchChatMessagesRequest` (messages.rs lines 333-375). -/
structure SearchChatMessagesRequest where
  cursor : Option String
  files_only : Option Bool
  highlight_results : Option Bool
  keyword_filter : Option KeywordFilter
  limit : Option Int
  location : Option LocationSchema
  location_filter : Option Bool
  mention_filter : Option MentionFilter
  request_geo_tags : Option Bool
  room_filter : Option DomainFilterDetail
  sender_filter : Option DomainFilterDetail
  sort : Option SortFilter
  thread_id_filter : Option ThreadIdFilter
  time_filter : Option TimeFilterRequest
  user_id_filter : Option UserIdFilter
  user_high_classification : String

/-- `Default for SearchChatMessagesRequest` (messages.rs lines 377-398). -/
def SearchChatMessagesRequest.defaultValue : SearchChatMessagesRequest :=
  { cursor := none,
    files_only := none,
    highlight_results := none,
    keyword_filter := none,
    limit := none,
    location := none,
    location_filter := none,
    mention_filter := none,
    request_geo_tags := none,
    room_filter := none,
    sender_filter := none,
    sort := none,
    thread_id_filter := none,
    time_filter := none,
    user_id_filter := none,
    user_high_classification := "Test" }

/-- Struct `SearchChatMessagesResponse` (messages.rs lines 435-446). -/
structure SearchChatMessagesResponse where
  classification : String
  messages : Option (List ChatMessageSchema)
  next_cursor_mark : Option String
  search_time_filter : TimeFilterResponse
  total : Int

/-- Struct `GetApiResponse` (messages.rs lines 163-175). -/
structure GetApiResponse where
  classification : String
  dn : String
  email : String
  key : String
  status : String

/-! ## Handlers (src/main.rs lines 162-330)

The Rust handlers serialize their bodies with `serde_json` (an external
library); a `ResponseBody` carries the structured value that was
serialized.  `ResponseBody.jsonString s` stands for
`serde_json::to_string(&s)` applied to a plain Rust string `s`. -/

/-- The body a handler answers with. -/
inductive ResponseBody where
  | jsonString (s : String)
  | error400 (body : ErrorCode400)
  | search (body : SearchChatMessagesResponse)
  | getMessages (body : GetChatMessagesResponse)
  | apiKey (body : GetApiResponse)
  | raw (s : String)

/-- `handle_get_messages` (main.rs lines 178-194): always 200 with a freshly
generated fixture set.  The optional `api-key` header is only logged, so it
does not appear here. -/
def handle_get_messages (e : Entropy) : Nat × ResponseBody :=
  (200, ResponseBody.getMessages (build_get_messages_response e))

/-- `handle_get_api_key` (main.rs lines 162-176).  The `status` field holds
the serde serialization of the ACTIVE enum variant. -/
def handle_get_api_key : Nat × ResponseBody :=
  (200, ResponseBody.apiKey
    { classification := UNCLASSIFIED_STRING,
      dn := "CN=Austin,O=Nine Hill Technology,ST=New York,C=US",
      email := "austin.farrell@ninehilltech.com",
      key := "a7B5siy9xY1dmN",
      status := "\"ACTIVE\"" })

/-- `handle_post_chat_message` (main.rs lines 196-241).
`SendChatMessageRequest::from_string` (messages.rs lines 258-260) is
`serde_json::from_str(..).unwrap()`: JSON parsing itself is the external
serde library, so the handler takes the parse outcome as input, and a failed
parse (`none`) makes the `unwrap` panic - the handler produces no response.
`num` is the constant `0`, so the 400 and 429 arms are dead code. -/
def handle_post_chat_message (parsed : Option SendChatMessageRequest) :
    Option (Nat × ResponseBody) :=
  match parsed with
  | none => none
  | some _request =>
      let num : Nat := 0
      match num with
      | 0 => some (204, ResponseBody.jsonString "Hello")
      | 1 => some (400, ResponseBody.error400 ErrorCode400.default)
      | _ => some (429, ResponseBody.jsonString "Hello 2")

/-- `handle_search_messages` (main.rs lines 243-324).
`SearchChatMessagesRequest::from_string` (messages.rs lines 414-416) is
`serde_json::from_str(..).unwrap()`, modelled as for the post handler.
`request.keyword_filter.unwrap()` panics when the filter is absent, and
`search_messages` panics on a token-less query; both give `none`.  `num` is
the constant `0`, so the 400 and 429 arms are dead code. -/
def handle_search_messages (e : Entropy) (now : String)
    (parsed : Option SearchChatMessagesRequest) : Option (Nat × ResponseBody) :=
  match parsed with
  | none => none
  | some request =>
      let num : Nat := 0
      match num with
      | 0 =>
          match request.keyword_filter with
          | none => none
          | some kf =>
              match search_messages e kf.query with
              | none => none
              | some search_results =>
                  some (200, ResponseBody.search
                    { classification := UNCLASSIFIED_STRING,
                      messages := some search_results,
                      next_cursor_mark := none,
                      search_time_filter := { end_date_time := now },
                      total := search_results.length })
      | 1 => some (400, ResponseBody.jsonString "\x7b\"classification\":\"SECRET//NOFORN\",\"code\":400,\"message\":\"Request body is missing or not readable.\"\x7d")
      | _ => some (429, ResponseBody.jsonString "Rate Exceeded")

/-- `handle_public_key_request` (main.rs lines 326-330): a fixed raw JSON
blob. -/
def handle_public_key_request : Nat × ResponseBody :=
  (200, ResponseBody.raw "\x7b\"realm\":\"fmv\",\"public_key\":\"MIIBIjANBgkqhkiG9w0BAQEFAAOCAQ8AMIIBCgKCAQEAzq/jsj5MTmOA9sW4YBJpv16yLPvznKLj3UqNXQ17WhukP5wu6GQyHMUSqNV8CAqGEA8TJpoQcpTCs8iaKxpfF1yORKdeuvCa/aJZpOw6TwsJZa1OWLONyJnOuPeZZNDUn+D7as+tS9ws7UP3AtROO8hkMS7+B3C90eXTWhZnkzEDSfDmfUxPMvYH/5yGUI4AtzbAGPMwiDOXOguXUSkV5TP7RXTZqrgHp3yvzBsbaWtjW9r4tfzXRHuGFXhlEgBdsBIzupaXrpfqIjHQXDhJ1NnI6KOQUTDi5t3VOhfZ8z6WXMPdqi/pvyzTenAshvoTR2rEti6KyLqwTdW6y1KFVQIDAQAB\",\"token-service\":\"https://app.fmvedgeview.net/keycloak/auth/realms/fmv/protocol/openid-connect\",\"account-service\":\"https://app.fmvedgeview.net/keycloak/auth/realms\",\"tokens-not-before\":0\x7d")

/-! ## Routing (src/main.rs lines 420-428) -/

/-- HTTP methods used by the route table. -/
inductive Method where
  | GET
  | POST
deriving DecidableEq

/-- Which handler a route is wired to. -/
inductive RouteAction where
  | publicKey
  | apiKey
  | getMessages
  | newMessage
  | searchMessagesAction
  | wsUpgrade
  | testSpin
deriving DecidableEq

/-- The `Router::new()` chain of `main` (main.rs lines 420-428), row for row:
the six §6 routes plus the extra `GET /connect` (a second WebSocket upgrade
route) and `GET /test` (a handler that loops forever logging). -/
def route_table : List (Method × String × RouteAction) :=
  [ (Method.GET, "/auth/realms/fmv", RouteAction.publicKey),
    (Method.GET, GET_API_KEY_ROUTE, RouteAction.apiKey),
    (Method.GET, MESSAGES_ROUTE, RouteAction.getMessages),
    (Method.POST, NEW_MESSAGE_ROUTE, RouteAction.newMessage),
    (Method.POST, SEARCH_MESSAGES_ROUTE, RouteAction.searchMessagesAction),
    (Method.GET, WS_SINGLE_ROOM_ROUTE, RouteAction.wsUpgrade),
    (Method.GET, "/connect", RouteAction.wsUpgrade),
    (Method.GET, "/test", RouteAction.testSpin) ]

/-- Dispatch of a method+path against the registered routes.  Modelled from
the spec for the part not in src/: the axum `Router` fallback answers 404
with an empty body for an unmatched method+path, so `none` here is the 404
response ("Any unmatched method/path → 404, empty body", spec §6). -/
def dispatch (m : Method) (p : String) : Option RouteAction :=
  (route_table.find? (fun r => decide (r.1 = m ∧ r.2.1 = p))).map (fun r => r.2.2)

/-- Spec-side route table: exactly the method+path rows of the table in §6
of the specification (get-all-messages, search, send-message, api-key,
public-key and the WebSocket room route), written with the path constants
of the source.  Declared for comparison with `route_table`. -/
def spec_route_table : List (Method × String) :=
  [ (Method.GET, MESSAGES_ROUTE),
    (Method.POST, SEARCH_MESSAGES_ROUTE),
    (Method.POST, NEW_MESSAGE_ROUTE),
    (Method.GET, GET_API_KEY_ROUTE),
    (Method.GET, "/auth/realms/fmv"),
    (Method.GET, WS_SINGLE_ROOM_ROUTE) ]

/-! ## A stateless request sequence (for the frame property)

The program keeps no state whatsoever between requests: no statics, no
store, nothing written by any handler.  A run of the server is therefore
the pointwise handling of the request list. -/

/-- An inbound request, with the body-parse outcome attached where the
route parses a body (`none` = the body did not parse). -/
inductive Request where
  | getMessages
  | postChatMessage (parsed : Option SendChatMessageRequest)
  | searchChatMessages (parsed : Option SearchChatMessagesRequest)
  | getApiKey
  | getPublicKey

/-- Handle one request (the WebSocket routes upgrade instead of answering
and are covered by the loop model below). -/
def handle_request (e : Entropy) (now : String) : Request → Option (Nat × ResponseBody)
  | Request.getMessages => some (handle_get_messages e)
  | Request.postChatMessage p => handle_post_chat_message p
  | Request.searchChatMessages p => handle_search_messages e now p
  | Request.getApiKey => some handle_get_api_key
  | Request.getPublicKey => some handle_public_key_request

/-- Handle a list of requests in order; the handlers share no state, so the
run is a map. -/
def run_server (e : Entropy) (now : String) : List Request → List (Option (Nat × ResponseBody))
  | [] => []
  | r :: rs => handle_request e now r :: run_server e now rs

/-! ## The WebSocket push loop (src/main.rs lines 332-361) -/

/-- Result of one `socket.send(..)` in `serve_ws_single_room`. -/
inductive SendStatus where
  | ok
  | error (e : String)

/-- The `match` on the send result (main.rs lines 350-359): the `Ok` arm
logs at DEBUG, the `Err` arm logs at ERROR, and both fall through to the
next `loop` iteration - there is no `break` or `return` in either arm. -/
def ws_loop_continues_after_send : SendStatus → Bool
  | SendStatus.ok => true
  | SendStatus.error _ => true

/-- Tick-indexed run of `serve_ws_single_room`, driven by the stream of
send outcomes: the loop reaches (and therefore sleeps, builds a message
and sends at) tick `n` iff it was reached at tick `n-1` and the arm taken
for that send fell through. -/
def ws_running (outcome : Nat → SendStatus) : Nat → Bool
  | 0 => true
  | n + 1 => ws_running outcome n && ws_loop_continues_after_send (outcome n)

/-- A connection whose peer has gone away: every send fails. -/
def all_error_outcomes : Nat → SendStatus :=
  fun _ => SendStatus.error "connection closed"

/-! ## Concrete values for witnesses and counterexamples -/

/-- A fixed entropy assignment (fresh values are opaque strings here). -/
def e0 : Entropy :=
  fun n => { id := "id-" ++ toString n,
             thread_id := "thread-" ++ toString n,
             user_id := "user-" ++ toString n,
             timestamp := "2024-01-01 00:00:00 UTC" }

/-- The §8 scenario request: `keywordFilter.query = "Antediluvian"`. -/
def keyword_search_request : SearchChatMessagesRequest :=
  { SearchChatMessagesRequest.defaultValue with
      keyword_filter := some { query := TEST_KEYWORD } }

/-- A search request whose query is the empty string. -/
def empty_query_request : SearchChatMessagesRequest :=
  { SearchChatMessagesRequest.defaultValue with
      keyword_filter := some { query := "" } }

/-- A search request whose query is all spaces. -/
def blank_query_request : SearchChatMessagesRequest :=
  { SearchChatMessagesRequest.defaultValue with
      keyword_filter := some { query := "   " } }

/-- The three fixture messages whose text carries `TEST_KEYWORD`, under the
entropy `e`: the Austin-, Joe- and Justin-seeded entries, in fixture order. -/
def keyword_messages (e : Entropy) : List ChatMessageSchema :=
  [ build_chat_message (e 0) 25 "Austin" TEST_KEYWORD,
    build_chat_message (e 2) 7 "Joe" TEST_KEYWORD,
    build_chat_message (e 5) 4 "Justin" TEST_KEYWORD ]

/-! ## Helper lemmas -/

/-- With a present first token the search loop is a filter by substring
containment, in the original message order. -/
theorem searchLoop_some (tok : String) (ms : List ChatMessageSchema) :
    searchLoop (some tok) ms = some (ms.filter (fun m => strContains m.text tok)) := by
  induction ms with
  | nil => rfl
  | cons m rest ih =>
      simp only [searchLoop, ih, List.filter_cons]

/-- Splitting a list with a space spliced in cuts at that space. -/
theorem splitOnSpace_append (a b acc : List Char) :
    splitOnSpace (a ++ ' ' :: b) acc = splitOnSpace a acc ++ splitOnSpace b [] := by
  induction a generalizing acc with
  | nil => rfl
  | cons c cs ih =>
      by_cases h : c = ' ' <;> simp [splitOnSpace, h, ih]

/-- `split(" ")` + `retain` distributes over gluing two queries with a
space. -/
theorem split_keywords_append (q s : String) :
    split_keywords (q ++ " " ++ s) = split_keywords q ++ split_keywords s := by
  unfold split_keywords
  have hdata : (q ++ " " ++ s).data = q.data ++ ' ' :: s.data := by
    show (q.data ++ [' ']) ++ s.data = q.data ++ ' ' :: s.data
    rw [List.append_assoc]
    rfl
  rw [hdata, splitOnSpace_append, List.filter_append]

/-! ## Claims -/

/-- Claim C3: every call to the fixture generator returns exactly 10 chat
messages, with senders in the fixed order Austin, Tyler, Joe, Jeremy,
Trevor, Justin, Ryan, Joseph, Rita, Matt, built from the fixed
seed/extra-text combinations (25,"Austin",keyword), (4,"Tyler",""),
(7,"Joe",keyword), (9,"Jeremy",""), (2,"Trevor",""), (4,"Justin",keyword),
(97856,"Ryan",""), (123,"Joseph",""), (432,"Rita",""), (654,"Matt",""). -/
theorem c3_fixture_set_fixed (e : Entropy) :
    (build_get_messages_response e).messages =
      [ build_chat_message (e 0) 25 "Austin" TEST_KEYWORD,
        build_chat_message (e 1) 4 "Tyler" "",
        build_chat_message (e 2) 7 "Joe" TEST_KEYWORD,
        build_chat_message (e 3) 9 "Jeremy" "",
        build_chat_message (e 4) 2 "Trevor" "",
        build_chat_message (e 5) 4 "Justin" TEST_KEYWORD,
        build_chat_message (e 6) 97856 "Ryan" "",
        build_chat_message (e 7) 123 "Joseph" "",
        build_chat_message (e 8) 432 "Rita" "",
        build_chat_message (e 9) 654 "Matt" "" ] ∧
    (build_get_messages_response e).messages.length = 10 ∧
    (build_get_messages_response e).messages.map ChatMessageSchema.sender =
      ["Austin", "Tyler", "Joe", "Jeremy", "Trevor", "Justin", "Ryan", "Joseph", "Rita", "Matt"] :=
  ⟨rfl, rfl, rfl⟩

/-- Claim C1: exactly 3 of the 10 fixture messages contain the marker
keyword "Antediluvian" (the Austin-, Joe- and Justin-seeded entries), and
every search whose first token is that keyword returns exactly those 3
messages in their original relative order, so the search response carries
`total == 3`. -/
theorem c1_keyword_distribution_and_search (e : Entropy) (now : String)
    (request : SearchChatMessagesRequest) (kf : KeywordFilter)
    (hkf : request.keyword_filter = some kf)
    (htok : (split_keywords kf.query).head? = some TEST_KEYWORD) :
    ((build_get_messages_response e).messages.countP
        (fun m => strContains m.text TEST_KEYWORD)) = 3 ∧
    search_messages e kf.query = some (keyword_messages e) ∧
    handle_search_messages e now (some request) = some (200, ResponseBody.search
      { classification := UNCLASSIFIED_STRING,
        messages := some (keyword_messages e),
        next_cursor_mark := none,
        search_time_filter := { end_date_time := now },
        total := 3 }) := by
  have hsearch : search_messages e kf.query = some (keyword_messages e) := by
    unfold search_messages
    rw [htok]
    rfl
  refine ⟨rfl, hsearch, ?_⟩
  have hstep : handle_search_messages e now (some request) =
      match search_messages e kf.query with
      | none => none
      | some search_results =>
          some (200, ResponseBody.search
            { classification := UNCLASSIFIED_STRING,
              messages := some search_results,
              next_cursor_mark := none,
              search_time_filter := { end_date_time := now },
              total := search_results.length }) := by
    show (match request.keyword_filter with
          | none => none
          | some kf =>
              match search_messages e kf.query with
              | none => none
              | some search_results =>
                  some (200, ResponseBody.search
                    { classification := UNCLASSIFIED_STRING,
                      messages := some search_results,
                      next_cursor_mark := none,
                      search_time_filter := { end_date_time := now },
                      total := search_results.length })
          : Option (Nat × ResponseBody)) = _
    rw [hkf]
  rw [hstep, hsearch]
  rfl

/-- Claim C1 witness: the §8 scenario request, with query "Antediluvian",
under the concrete entropy `e0`. -/
theorem c1_keyword_distribution_and_search_witness :
    ((build_get_messages_response e0).messages.countP
        (fun m => strContains m.text TEST_KEYWORD)) = 3 ∧
    search_messages e0 TEST_KEYWORD = some (keyword_messages e0) ∧
    handle_search_messages e0 "2024-01-01T00:00:00+00:00" (some keyword_search_request) =
      some (200, ResponseBody.search
        { classification := UNCLASSIFIED_STRING,
          messages := some (keyword_messages e0),
          next_cursor_mark := none,
          search_time_filter := { end_date_time := "2024-01-01T00:00:00+00:00" },
          total := 3 }) :=
  c1_keyword_distribution_and_search e0 "2024-01-01T00:00:00+00:00"
    keyword_search_request { query := TEST_KEYWORD } rfl rfl

/-- Reduction of the search handler once the keyword filter is known to be
present. -/
theorem handle_search_reduce (e : Entropy) (now : String)
    (request : SearchChatMessagesRequest) (kf : KeywordFilter)
    (hkf : request.keyword_filter = some kf) :
    handle_search_messages e now (some request) =
      match search_messages e kf.query with
      | none => none
      | some search_results =>
          some (200, ResponseBody.search
            { classification := UNCLASSIFIED_STRING,
              messages := some search_results,
              next_cursor_mark := none,
              search_time_filter := { end_date_time := now },
              total := search_results.length }) := by
  show (match request.keyword_filter with
        | none => none
        | some kf =>
            match search_messages e kf.query with
            | none => none
            | some search_results =>
                some (200, ResponseBody.search
                  { classification := UNCLASSIFIED_STRING,
                    messages := some search_results,
                    next_cursor_mark := none,
                    search_time_filter := { end_date_time := now },
                    total := search_results.length })
        : Option (Nat × ResponseBody)) = _
  rw [hkf]

/-- Reduction of the search handler when the keyword filter is absent: the
`unwrap` panics, no response. -/
theorem handle_search_no_filter (e : Entropy) (now : String)
    (request : SearchChatMessagesRequest)
    (hkf : request.keyword_filter = none) :
    handle_search_messages e now (some request) = none := by
  show (match request.keyword_filter with
        | none => none
        | some kf =>
            match search_messages e kf.query with
            | none => none
            | some search_results =>
                some (200, ResponseBody.search
                  { classification := UNCLASSIFIED_STRING,
                    messages := some search_results,
                    next_cursor_mark := none,
                    search_time_filter := { end_date_time := now },
                    total := search_results.length })
        : Option (Nat × ResponseBody)) = _
  rw [hkf]

/-- `search_messages` with a first token is a substring filter over the
fixture set. -/
theorem search_messages_of_head (e : Entropy) (q tok : String)
    (h : (split_keywords q).head? = some tok) :
    search_messages e q =
      some ((build_get_messages_response e).messages.filter
        (fun m => strContains m.text tok)) := by
  unfold search_messages
  rw [h, searchLoop_some]

/-- `search_messages` without any non-empty token panics on the first
message examined. -/
theorem search_messages_no_token (e : Entropy) (q : String)
    (h : (split_keywords q).head? = none) :
    search_messages e q = none := by
  unfold search_messages
  rw [h]
  rfl

/-- Claim C2 (the behaviour the spec requires is right, the code slips, as
§9 of the spec itself records): on a query that is empty or all
whitespace, `search_messages` panics via `split_keywords.first().unwrap()`
and the search handler therefore produces no HTTP response at all -
neither the required 400-class error nor any success. -/
theorem c2_empty_query_faults (e : Entropy) (now : String) :
    search_messages e "" = none ∧
    search_messages e "   " = none ∧
    handle_search_messages e now (some empty_query_request) = none ∧
    handle_search_messages e now (some blank_query_request) = none :=
  ⟨rfl, rfl, rfl, rfl⟩

/-- Claim C4 counterexample: for q = "" and s = "Antediluvian" the claimed
equality fails - searching q ++ " " ++ s succeeds with the three keyword
messages while searching q alone panics (no result at all). -/
theorem c4_counterexample :
    search_messages e0 ("" ++ " " ++ TEST_KEYWORD) = some (keyword_messages e0) ∧
    search_messages e0 "" = none ∧
    search_messages e0 ("" ++ " " ++ TEST_KEYWORD) ≠ search_messages e0 "" := by
  have h1 : search_messages e0 ("" ++ " " ++ TEST_KEYWORD) = some (keyword_messages e0) := rfl
  have h2 : search_messages e0 "" = none := rfl
  refine ⟨h1, h2, ?_⟩
  rw [h1, h2]
  exact fun h => Option.noConfusion h

/-- Claim C4 (amended): provided the query q has a first non-empty
space-separated token, appending a space and any suffix s leaves the search
result unchanged, and the result is the ordinal-substring filter of the
fixture set by that first token. -/
theorem c4_first_token_only (e : Entropy) (q s tok : String)
    (htok : (split_keywords q).head? = some tok) :
    search_messages e (q ++ " " ++ s) = search_messages e q ∧
    search_messages e q =
      some ((build_get_messages_response e).messages.filter
        (fun m => strContains m.text tok)) := by
  have hhead : (split_keywords (q ++ " " ++ s)).head? = some tok := by
    rw [split_keywords_append]
    cases hq : split_keywords q with
    | nil => rw [hq] at htok; cases htok
    | cons a l =>
        rw [hq] at htok
        rw [List.cons_append]
        simpa using htok
  rw [search_messages_of_head e (q ++ " " ++ s) tok hhead,
      search_messages_of_head e q tok htok]
  exact ⟨rfl, rfl⟩

/-- Claim C4 witness: the spec's example, "test_keyword extra" versus
"test_keyword". -/
theorem c4_first_token_only_witness :
    search_messages e0 ("test_keyword" ++ " " ++ "extra") = search_messages e0 "test_keyword" ∧
    search_messages e0 "test_keyword" =
      some ((build_get_messages_response e0).messages.filter
        (fun m => strContains m.text "test_keyword")) :=
  c4_first_token_only e0 "test_keyword" "extra" "test_keyword" rfl

/-- Claim C10: the search handler completes without an unguarded-access
fault exactly when the parsed request has a keyword filter whose query has
at least one non-empty space-separated token; with the filter absent (or
the query token-less) the handler faults, producing no response. -/
theorem c10_search_fault_characterization (e : Entropy) (now : String)
    (request : SearchChatMessagesRequest) :
    (handle_search_messages e now (some request)).isSome = true ↔
      ∃ kf tok, request.keyword_filter = some kf ∧
        (split_keywords kf.query).head? = some tok := by
  constructor
  · intro h
    cases hkf : request.keyword_filter with
    | none =>
        rw [handle_search_no_filter e now request hkf] at h
        simp at h
    | some kf =>
        cases htok : (split_keywords kf.query).head? with
        | none =>
            rw [handle_search_reduce e now request kf hkf,
                search_messages_no_token e kf.query htok] at h
            simp at h
        | some tok => exact ⟨kf, tok, rfl, htok⟩
  · rintro ⟨kf, tok, hkf, htok⟩
    rw [handle_search_reduce e now request kf hkf,
        search_messages_of_head e kf.query tok htok]
    rfl

/-- Claim C5 counterexample: on a connection whose sends all fail, the send
at tick 0 errors, yet the loop is still running at ticks 1 and 2 and so
performs further sends - the source's match arms both fall through. -/
theorem c5_counterexample :
    all_error_outcomes 0 = SendStatus.error "connection closed" ∧
    ws_running all_error_outcomes 1 = true ∧
    ws_running all_error_outcomes 2 = true :=
  ⟨rfl, rfl, rfl⟩

/-- Claim C5 (amended): the push loop of `serve_ws_single_room` never
terminates on a failed send - an `Err` from `socket.send` is only logged,
both match arms fall through, and a further send is attempted at every
tick no matter what the earlier outcomes were. -/
theorem c5_loop_continues_after_failed_send (outcome : Nat → SendStatus) (n : Nat) :
    ws_loop_continues_after_send (outcome n) = true ∧
    ws_running outcome n = true := by
  constructor
  · cases houtcome : outcome n
    · rfl
    · rfl
  · induction n with
    | zero => rfl
    | succ k ih =>
        show (ws_running outcome k && ws_loop_continues_after_send (outcome k)) = true
        rw [ih]
        cases h : outcome k
        · rfl
        · rfl

/-- Claim C6 counterexample: a body that fails to parse (`none`) makes both
the send-message and the search handler produce no response at all - the
`unwrap` inside `from_string` panics - instead of the claimed 400 with a
structured validation-error body. -/
theorem c6_counterexample :
    handle_post_chat_message none = none ∧
    handle_search_messages e0 "2024-01-01T00:00:00+00:00" none = none ∧
    handle_post_chat_message none ≠ some (400, ResponseBody.error400 ErrorCode400.default) :=
  ⟨rfl, rfl, fun h => Option.noConfusion h⟩

/-- Claim C6 (amended): on a request body that fails to parse, each handler
faults in `from_string`'s `unwrap` and produces no HTTP response at all;
neither handler can answer 400 on any input - the post handler answers
204 whenever the body parses, and the search handler either faults or
answers 200 (the 400 branches are dead code behind the constant `num = 0`). -/
theorem c6_malformed_body_faults (e : Entropy) (now : String)
    (p : Option SendChatMessageRequest) (ps : Option SearchChatMessagesRequest) :
    handle_post_chat_message none = none ∧
    handle_search_messages e now none = none ∧
    (handle_post_chat_message p = none ∨
      (handle_post_chat_message p).map Prod.fst = some 204) ∧
    (handle_search_messages e now ps = none ∨
      (handle_search_messages e now ps).map Prod.fst = some 200) := by
  refine ⟨rfl, rfl, ?_, ?_⟩
  · cases p with
    | none => exact Or.inl rfl
    | some req => exact Or.inr rfl
  · cases ps with
    | none => exact Or.inl rfl
    | some req =>
        cases hkf : req.keyword_filter with
        | none => exact Or.inl (handle_search_no_filter e now req hkf)
        | some kf =>
            cases htok : (split_keywords kf.query).head? with
            | none =>
                refine Or.inl ?_
                rw [handle_search_reduce e now req kf hkf,
                    search_messages_no_token e kf.query htok]
            | some tok =>
                refine Or.inr ?_
                rw [handle_search_reduce e now req kf hkf,
                    search_messages_of_head e kf.query tok htok]
                rfl

/-- Claim C7 counterexample: the location inside every fixture geo tag is
declared `Point` but its active variant is `Polygon` -
`LocationSchema::init` builds a `PolygonLocation` payload regardless of the
tag it is given. -/
theorem c7_counterexample :
    (build_geotag 25).location.type = LocationType.Point ∧
    location_variant_matches_tag (build_geotag 25).location = false :=
  ⟨rfl, rfl⟩

/-- Claim C7 (amended): every location built by `LocationSchema::init`
carries the Polygon active variant regardless of the declared tag, so the
tag/variant invariant fails for every fixture geo-tag location (which is
tagged `Point`); only `LocationSchema::new_polygon` satisfies it. -/
theorem c7_location_variant_mismatch (seed : Int) (coord : F32) (t : LocationType) :
    (build_geotag seed).location = LocationSchema.init 1 LocationType.Point ∧
    (LocationSchema.init coord t).type = t ∧
    (LocationSchema.init coord t).aoi =
      LocationTypes.Polygon (PolygonLocation.test coord) ∧
    location_variant_matches_tag (LocationSchema.init coord LocationType.Point) = false ∧
    location_variant_matches_tag LocationSchema.new_polygon = true :=
  ⟨rfl, rfl, rfl, rfl, rfl⟩

/-- Claim C8: any parsed `SendChatMessageRequest` body posted to the
message-creation route is answered 204, and no sequence of prior requests
(posts included) changes the answer of a subsequent get-all-messages call:
it is always the freshly built 10-element fixture set. -/
theorem c8_send_message_no_effect (e : Entropy) (now : String)
    (request : SendChatMessageRequest) (prior : List Request) :
    handle_post_chat_message (some request) = some (204, ResponseBody.jsonString "Hello") ∧
    run_server e now (prior ++ [Request.getMessages]) =
      run_server e now prior ++
        [some (200, ResponseBody.getMessages (build_get_messages_response e))] ∧
    (build_get_messages_response e).messages.length = 10 := by
  refine ⟨rfl, ?_, rfl⟩
  induction prior with
  | nil => rfl
  | cons r rs ih =>
      show handle_request e now r :: run_server e now (rs ++ [Request.getMessages]) =
        handle_request e now r ::
          (run_server e now rs ++
            [some (200, ResponseBody.getMessages (build_get_messages_response e))])
      rw [ih]

/-- Claim C9 counterexample: `GET /test` is not one of the §6 routes, yet
the dispatcher does not answer 404 - the code's `Router` also registers
`/test` (and `/connect`). -/
theorem c9_counterexample :
    (Method.GET, "/test") ∉ spec_route_table ∧
    dispatch Method.GET "/test" = some RouteAction.testSpin := by
  constructor
  · decide
  · rfl

/-- Claim C9 (amended): every method+path with no row in the code's route
table - the §6 routes plus the extra `GET /connect` and `GET /test` - is
answered 404 (empty body); `GET /connect` and `GET /test` themselves are
registered and are not 404. -/
theorem c9_unregistered_routes_404 (m : Method) (p : String)
    (h : route_table.all (fun r => !decide (r.1 = m ∧ r.2.1 = p)) = true) :
    dispatch m p = none := by
  unfold dispatch
  have hfind : route_table.find? (fun r => decide (r.1 = m ∧ r.2.1 = p)) = none := by
    rw [List.find?_eq_none]
    intro x hx
    have hb := List.all_eq_true.mp h x hx
    simp only [Bool.not_eq_true'] at hb
    simp [hb]
  rw [hfind]
  rfl

/-- Claim C9 witness: an arbitrary unregistered path is dispatched to 404. -/
theorem c9_unregistered_routes_404_witness :
    dispatch Method.GET "/nonexistent" = none :=
  c9_unregistered_routes_404 Method.GET "/nonexistent" (by decide)
